import Mathlib

/-!
Verification of the process-supervision core of the `src-tauri` crate
(`src/backend.rs`, `src/main.rs`): dynamic port allocation, child spawn
with an injected environment, bounded health polling, and teardown.

The Rust code is shallowly embedded: every external effect (socket bind,
path providers, filesystem, spawn, HTTP polling, lock acquisition, child
kill) is an oracle parameter giving that effect's outcome, and each Rust
function becomes a Lean function over those oracles that mirrors the
source control flow line by line.  Filesystem paths are lists of
components, `PathBuf::join` is list append of one component, and `u16`
ports are `Nat` values (no arithmetic is performed on them, so no
wrap-around can occur).
-/

namespace Suzent

/-- A socket address as returned by `TcpListener::local_addr()`. -/
structure SockAddr where
  host : String
  port : Nat
  deriving Repr, DecidableEq

/-- The part of `std::net::TcpListener` the code consumes: the result of
`local_addr()` on the bound listener. -/
structure TcpListener where
  local_addr : Except String SockAddr
  deriving Repr

/-- `struct BackendProcess { child: Option<Child>, pub port: u16 }`
(backend.rs lines 7-10).  A `Child` handle is identified by its pid. -/
structure BackendProcess where
  child : Option Nat
  port : Nat
  deriving Repr, DecidableEq

/-- `BackendProcess::new()` (backend.rs lines 13-18). -/
def BackendProcess.new : BackendProcess :=
  { child := none, port := 0 }

/-- `BackendProcess::find_available_port()` (backend.rs lines 21-26):
bind `127.0.0.1:0`, chain into `local_addr()`, project the port, and
map any error into the `"Failed to find available port: "` string.
The `bind` oracle gives the OS outcome for the one address the code
uses. -/
def find_available_port (bind : String → Except String TcpListener) :
    Except String Nat :=
  match bind "127.0.0.1:0" with
  | .error e => .error ("Failed to find available port: " ++ e)
  | .ok l =>
    match l.local_addr with
    | .error e => .error ("Failed to find available port: " ++ e)
    | .ok addr => .ok addr.port

/-- Platform-dependent binary name (backend.rs lines 34-38). -/
def binary_name (isWindows : Bool) : String :=
  if isWindows then "suzent-backend.exe" else "suzent-backend"

/-- `BackendProcess::get_backend_path` (backend.rs lines 29-41):
resolve the resource directory, then join `binaries/<binary_name>`. -/
def get_backend_path (resourceDir : Except String (List String))
    (isWindows : Bool) : Except String (List String) :=
  match resourceDir with
  | .error e => .error ("Failed to get resource dir: " ++ e)
  | .ok d => .ok (d ++ ["binaries", binary_name isWindows])

/-- A value bound to an environment variable: either a scalar string or a
filesystem path. -/
inductive EnvVal where
  | str (s : String)
  | path (p : List String)
  deriving Repr, DecidableEq

/-- The environment mapping handed to the spawned child (backend.rs
lines 61-67), in source order. -/
def backendEnv (port : Nat) (app_data_dir : List String) :
    List (String × EnvVal) :=
  [("SUZENT_PORT", .str (toString port)),
   ("SUZENT_HOST", .str "127.0.0.1"),
   ("SUZENT_APP_DATA", .path app_data_dir),
   ("CHATS_DB_PATH", .path (app_data_dir ++ ["chats.db"])),
   ("LANCEDB_URI", .path (app_data_dir ++ ["memory"])),
   ("SANDBOX_DATA_PATH", .path (app_data_dir ++ ["sandbox-data"])),
   ("SKILLS_DIR", .path (app_data_dir ++ ["skills"]))]

/-- Outcome of one HTTP GET in the health loop: either the transport
failed (`client.get(&url).send()` returned `Err`, covering refused,
reset and timeout) or a response with the given status code arrived. -/
inductive PollResult where
  | transportError
  | response (status : Nat)
  deriving Repr, DecidableEq

/-- The acceptance test of backend.rs line 91:
`resp.status().is_success() || resp.status().as_u16() == 404`.
`StatusCode::is_success` holds exactly for 200..=299. -/
def isAlive : PollResult → Bool
  | .transportError => false
  | .response s => (200 ≤ s && s ≤ 299) || s == 404

/-- Observable events of the health loop: the 500 ms sleep at the top of
each iteration, and the poll of a given 1-based attempt number. -/
inductive WaitEvent where
  | sleep (ms : Nat)
  | poll (attempt : Nat)
  deriving Repr, DecidableEq

/-- The timeout error string of backend.rs line 98. -/
def healthErrMsg : String := "Backend failed to start within 30 seconds"

/-- The `for attempt in 1..=60` loop body (backend.rs lines 86-96):
each remaining iteration sleeps 500 ms, polls, and returns `Ok` as soon
as `isAlive` accepts; exhausting the range yields `healthErrMsg`.
Returns the event trace together with the result. -/
def waitAux (polls : Nat → PollResult) :
    Nat → Nat → List WaitEvent × Except String Unit
  | _, 0 => ([], .error healthErrMsg)
  | attempt, fuel + 1 =>
    if isAlive (polls attempt) then
      ([.sleep 500, .poll attempt], .ok ())
    else
      let rest := waitAux polls (attempt + 1) fuel
      (.sleep 500 :: .poll attempt :: rest.1, rest.2)

/-- `BackendProcess::wait_for_backend` (backend.rs lines 78-99): build
the HTTP client (its failure is fatal with the
`"Failed to create HTTP client: "` message, before any poll), then run
the 60-attempt loop.  The `polls` oracle gives the outcome of the GET at
each attempt. -/
def wait_for_backend (clientBuild : Except String Unit)
    (polls : Nat → PollResult) : List WaitEvent × Except String Unit :=
  match clientBuild with
  | .error e => ([], .error ("Failed to create HTTP client: " ++ e))
  | .ok _ => waitAux polls 1 60

/-- Number of polls performed in a trace. -/
def pollCount (es : List WaitEvent) : Nat :=
  (es.filter fun e => match e with | .poll _ => true | _ => false).length

/-- All external outcomes consumed by one run of `start`. -/
structure StartOracle where
  bind : String → Except String TcpListener
  resourceDir : Except String (List String)
  appDataDir : Except String (List String)
  createDirAll : List String → Except String Unit
  spawn : List String → List (String × EnvVal) → Except String Nat
  clientBuild : Except String Unit
  polls : Nat → PollResult

/-- What a run of `start` produced: the supervisor state it left behind,
the returned value, the pid it spawned (if the spawn step ran and
succeeded), the environment it passed to `spawn` (if it got that far),
and the kill operations it issued (the source issues none). -/
structure StartOutcome where
  state : BackendProcess
  result : Except String Nat
  spawned : Option Nat
  envUsed : Option (List (String × EnvVal))
  kills : List Nat
  deriving Repr

/-- `BackendProcess::start` (backend.rs lines 46-75), step by step:
allocate a port and store it in `self.port` (line 48) immediately;
resolve the executable and data directory; `create_dir_all`; spawn with
`backendEnv`; store the child handle; health-poll; on poll success
return the port.  Every `?` propagates the error with the state as it
stands at that point — in particular the health-check error propagates
with the child still held and no kill issued. -/
def start (o : StartOracle) (p : BackendProcess) : StartOutcome :=
  match find_available_port o.bind with
  | .error e =>
    { state := p, result := .error e, spawned := none,
      envUsed := none, kills := [] }
  | .ok port =>
    let p1 : BackendProcess := { p with port := port }
    match get_backend_path o.resourceDir false with
    | .error e =>
      { state := p1, result := .error e, spawned := none,
        envUsed := none, kills := [] }
    | .ok backend_exe =>
      match o.appDataDir with
      | .error e =>
        { state := p1, result := .error ("Failed to get app data dir: " ++ e),
          spawned := none, envUsed := none, kills := [] }
      | .ok app_data_dir =>
        match o.createDirAll app_data_dir with
        | .error e =>
          { state := p1,
            result := .error ("Failed to create app data dir: " ++ e),
            spawned := none, envUsed := none, kills := [] }
        | .ok _ =>
          let env := backendEnv port app_data_dir
          match o.spawn backend_exe env with
          | .error e =>
            { state := p1, result := .error ("Failed to start backend: " ++ e),
              spawned := none, envUsed := some env, kills := [] }
          | .ok child =>
            let p2 : BackendProcess := { p1 with child := some child }
            match (wait_for_backend o.clientBuild o.polls).2 with
            | .error e =>
              { state := p2, result := .error e, spawned := some child,
                envUsed := some env, kills := [] }
            | .ok _ =>
              { state := p2, result := .ok port, spawned := some child,
                envUsed := some env, kills := [] }

/-- `BackendProcess::stop` (backend.rs lines 102-106): `take` the
handle; if one was present, kill it and discard the kill's result
(`let _ = child.kill()`).  `killRes` is the OS outcome of the kill,
which the source swallows.  Returns the new state and the list of pids
a kill was issued for. -/
def stop (killRes : Nat → Except String Unit) (p : BackendProcess) :
    BackendProcess × List Nat :=
  match p.child with
  | some c =>
    let _ := killRes c
    ({ child := none, port := p.port }, [c])
  | none => (p, [])

/-- `impl Drop for BackendProcess` (backend.rs lines 109-113): destruction
invokes `stop`. -/
def dropBackend (killRes : Nat → Except String Unit) (p : BackendProcess) :
    BackendProcess × List Nat :=
  stop killRes p

/-- The `get_backend_port` Tauri command (main.rs lines 14-19): lock the
state (a poisoned lock yields `"Lock error: "`), read `backend.port`.
Returns the result together with the (unchanged) state behind the
lock. -/
def get_backend_port (lockRes : Except String Unit) (st : BackendProcess) :
    Except String Nat × BackendProcess :=
  match lockRes with
  | .error e => (.error ("Lock error: " ++ e), st)
  | .ok _ => (.ok st.port, st)

/-- The script string built by `inject_backend_port` (main.rs line 24). -/
def injectScript (port : Nat) : String :=
  "window.__SUZENT_BACKEND_PORT__ = " ++ toString port ++ ";"

/-- `get_backend_config` under `cfg(debug_assertions)` (main.rs
lines 61-67): port 8000 paired with a fresh `BackendProcess`. -/
def get_backend_config_debug : Nat × BackendProcess :=
  (8000, BackendProcess.new)

/-! ### Concrete oracles used to exercise the definitions -/

/-- A run in which the OS grants port 4242, every filesystem and spawn
step succeeds (pid 7), but no health poll ever gets a response. -/
def oracleHealthFail : StartOracle :=
  { bind := fun _ =>
      .ok { local_addr := .ok { host := "127.0.0.1", port := 4242 } },
    resourceDir := .ok ["res"],
    appDataDir := .ok ["data"],
    createDirAll := fun _ => .ok (),
    spawn := fun _ _ => .ok 7,
    clientBuild := .ok (),
    polls := fun _ => .transportError }

/-- Like `oracleHealthFail`, but the spawn step fails. -/
def oracleSpawnFail : StartOracle :=
  { oracleHealthFail with spawn := fun _ _ => .error "missing executable" }

/-- Like `oracleHealthFail`, but the initial socket bind fails. -/
def oracleBindFail : StartOracle :=
  { oracleHealthFail with bind := fun _ => .error "no free ports" }

/-- Like `oracleHealthFail`, but the first health poll answers 200. -/
def oracleAllOk : StartOracle :=
  { oracleHealthFail with polls := fun _ => .response 200 }

/-! ### Helper lemmas on the health-poll loop -/

/-- If every attempt in the remaining window fails, the loop runs the
whole window and reports the timeout error. -/
lemma waitAux_all_fail (polls : Nat → PollResult) :
    ∀ (fuel a : Nat),
      (∀ i, a ≤ i → i < a + fuel → isAlive (polls i) = false) →
      waitAux polls a fuel =
        ((List.range' a fuel).flatMap fun i => [.sleep 500, .poll i],
         .error healthErrMsg) := by
  intro fuel
  induction fuel with
  | zero => intro a _; simp [waitAux]
  | succ n ih =>
    intro a h
    have ha : isAlive (polls a) = false := h a le_rfl (by omega)
    have hrest := ih (a + 1) (fun i h1 h2 => h i (by omega) (by omega))
    simp [waitAux, ha, hrest, List.range'_succ]

/-- The loop performs at most `fuel` polls. -/
lemma pollCount_waitAux_le (polls : Nat → PollResult) :
    ∀ (fuel a : Nat), pollCount (waitAux polls a fuel).1 ≤ fuel := by
  intro fuel
  induction fuel with
  | zero => intro a; simp [waitAux, pollCount]
  | succ n ih =>
    intro a
    by_cases ha : isAlive (polls a) = true
    · simp [waitAux, ha, pollCount]
    · simp only [Bool.not_eq_true] at ha
      simp only [waitAux, ha, Bool.false_eq_true, if_false]
      simpa [pollCount] using ih (a + 1)

/-- Every sleep the loop performs is exactly 500 ms. -/
lemma sleep_waitAux_const (polls : Nat → PollResult) :
    ∀ (fuel a ms : Nat),
      WaitEvent.sleep ms ∈ (waitAux polls a fuel).1 → ms = 500 := by
  intro fuel
  induction fuel with
  | zero => intro a ms h; simp [waitAux] at h
  | succ n ih =>
    intro a ms h
    by_cases ha : isAlive (polls a) = true
    · simp [waitAux, ha] at h
      exact h
    · simp only [Bool.not_eq_true] at ha
      simp only [waitAux, ha, Bool.false_eq_true, if_false, List.mem_cons] at h
      rcases h with h | h | h
      · cases h; rfl
      · cases h
      · exact ih (a + 1) ms h

/-- Poll count of the full-window trace. -/
lemma pollCount_bindTrace :
    ∀ (n a : Nat),
      pollCount ((List.range' a n).flatMap fun i =>
        [WaitEvent.sleep 500, WaitEvent.poll i]) = n := by
  intro n
  induction n with
  | zero => intro a; simp [pollCount]
  | succ m ih =>
    intro a
    simp only [List.range'_succ, List.flatMap_cons]
    simpa [pollCount] using ih (a + 1)

/-- A successful `start` run returns exactly the port it stored. -/
lemma start_ok_port (o : StartOracle) (p : BackendProcess) (q : Nat) :
    (start o p).result = .ok q → (start o p).state.port = q := by
  unfold start
  cases hfp : find_available_port o.bind with
  | error e => intro h; simp_all
  | ok port =>
    cases hbp : get_backend_path o.resourceDir false with
    | error e => intro h; simp_all
    | ok exe =>
      cases had : o.appDataDir with
      | error e => intro h; simp_all
      | ok dir =>
        cases hcd : o.createDirAll dir with
        | error e => intro h; simp_all
        | ok u =>
          cases hsp : o.spawn exe (backendEnv port dir) with
          | error e => intro h; simp_all
          | ok c =>
            cases hw : (wait_for_backend o.clientBuild o.polls).2 with
            | error e => intro h; simp_all
            | ok u2 => intro h; simp_all

/-! ### Claims -/

/-- C1, counterexample.  Under `oracleHealthFail` every step of `start`
succeeds except the health poll, which exhausts its budget: `start`
reports the health-check error, yet the spawned child (pid 7) is still
held in the supervisor's handle and no kill was issued — contradicting
the claim that a failed start leaves no live spawned child held. -/
theorem C1_counterexample :
    (start oracleHealthFail BackendProcess.new).result =
      Except.error healthErrMsg ∧
    (start oracleHealthFail BackendProcess.new).state.child = some 7 ∧
    (start oracleHealthFail BackendProcess.new).kills = [] :=
  ⟨rfl, rfl, rfl⟩

/-- C1, amended.  When `start` spawns the child and the health poll then
fails, `start` reports the health-check error WITHOUT killing the child:
the spawned child remains held in the supervisor's handle (`child = some
c`) and no kill is issued during `start`; the child is only terminated
by a later `stop` or by the owner's `Drop`. -/
theorem C1_health_failure_keeps_child
    (o : StartOracle) (p : BackendProcess) (port : Nat)
    (exe dir : List String) (c : Nat) (e : String)
    (hport : find_available_port o.bind = .ok port)
    (hexe : get_backend_path o.resourceDir false = .ok exe)
    (hdir : o.appDataDir = .ok dir)
    (hmk : o.createDirAll dir = .ok ())
    (hspawn : o.spawn exe (backendEnv port dir) = .ok c)
    (hwait : (wait_for_backend o.clientBuild o.polls).2 = .error e) :
    (start o p).result = .error e ∧
    (start o p).state.child = some c ∧
    (start o p).state.port = port ∧
    (start o p).kills = [] := by
  unfold start
  simp [hport, hexe, hdir, hmk, hspawn, hwait]

/-- C1, witness for the amended theorem at `oracleHealthFail`. -/
theorem C1_health_failure_keeps_child_witness :
    (start oracleHealthFail BackendProcess.new).result =
      Except.error healthErrMsg ∧
    (start oracleHealthFail BackendProcess.new).state.child = some 7 ∧
    (start oracleHealthFail BackendProcess.new).state.port = 4242 ∧
    (start oracleHealthFail BackendProcess.new).kills = [] :=
  C1_health_failure_keeps_child oracleHealthFail BackendProcess.new 4242
    ["res", "binaries", "suzent-backend"] ["data"] 7 healthErrMsg
    rfl rfl rfl rfl rfl rfl

/-- C2, counterexample.  Under `oracleSpawnFail` the port allocation
grants 4242 and the spawn then fails: `start` fails, yet the state's
`port` field is 4242, not 0 — the claim that every failed `start` leaves
`port = 0` is false. -/
theorem C2_counterexample :
    (start oracleSpawnFail BackendProcess.new).result =
      Except.error ("Failed to start backend: " ++ "missing executable") ∧
    (start oracleSpawnFail BackendProcess.new).state.port = 4242 ∧
    (4242 : Nat) ≠ 0 :=
  ⟨rfl, rfl, by decide⟩

/-- C2, amended.  `start` writes the allocated port into the state
immediately after allocation succeeds: only a failure of the port
allocation itself leaves the `SupervisorState` unchanged (and hence
`port = 0` on a fresh supervisor); a run that fails at any later step
(path resolution, directory creation, spawn, health check) leaves
`port` equal to the newly allocated port, so `port == 0` no longer
means "not yet started" after such a failure. -/
theorem C2_port_written_after_allocation
    (o : StartOracle) (p : BackendProcess) :
    (∀ e, find_available_port o.bind = .error e → (start o p).state = p) ∧
    (∀ q, find_available_port o.bind = .ok q → (start o p).state.port = q) := by
  constructor
  · intro e he
    unfold start
    simp only [he]
  · intro q hq
    unfold start
    simp only [hq]
    cases hbp : get_backend_path o.resourceDir false with
    | error e => rfl
    | ok exe =>
      simp only [hbp]
      cases had : o.appDataDir with
      | error e => rfl
      | ok dir =>
        simp only [had]
        cases hcd : o.createDirAll dir with
        | error e => rfl
        | ok u =>
          simp only [hcd]
          cases hsp : o.spawn exe (backendEnv q dir) with
          | error e => rfl
          | ok c =>
            simp only [hsp]
            cases hw : (wait_for_backend o.clientBuild o.polls).2 with
            | error e => rfl
            | ok u2 => rfl

/-- C2, witness: the allocation-failure half at `oracleBindFail`, the
allocation-success half at `oracleSpawnFail`. -/
theorem C2_port_written_after_allocation_witness :
    (start oracleBindFail BackendProcess.new).state = BackendProcess.new ∧
    (start oracleSpawnFail BackendProcess.new).state.port = 4242 :=
  ⟨(C2_port_written_after_allocation oracleBindFail BackendProcess.new).1
      ("Failed to find available port: " ++ "no free ports") rfl,
   (C2_port_written_after_allocation oracleSpawnFail BackendProcess.new).2
      4242 rfl⟩

/-- C3.  A poll attempt is accepted as ready exactly when a response
arrived with a 2xx status or status 404; a transport failure is never
accepted; and a non-accepted attempt makes the loop continue with the
next attempt (retry) rather than stop. -/
theorem C3_poll_acceptance :
    (∀ s, isAlive (.response s) = true ↔ ((200 ≤ s ∧ s ≤ 299) ∨ s = 404)) ∧
    isAlive .transportError = false ∧
    (∀ (polls : Nat → PollResult) (attempt fuel : Nat),
      isAlive (polls attempt) = false →
      waitAux polls attempt (fuel + 1) =
        (WaitEvent.sleep 500 :: WaitEvent.poll attempt ::
           (waitAux polls (attempt + 1) fuel).1,
         (waitAux polls (attempt + 1) fuel).2)) := by
  refine ⟨?_, rfl, ?_⟩
  · intro s
    simp [isAlive]
  · intro polls attempt fuel h
    simp [waitAux, h]

/-- C3, witness: 404 is accepted; a transport error at attempt 1 makes
the loop retry at attempt 2. -/
theorem C3_poll_acceptance_witness :
    isAlive (PollResult.response 404) = true ∧
    waitAux (fun _ => PollResult.transportError) 1 1 =
      (WaitEvent.sleep 500 :: WaitEvent.poll 1 ::
         (waitAux (fun _ => PollResult.transportError) 2 0).1,
       (waitAux (fun _ => PollResult.transportError) 2 0).2) :=
  ⟨(C3_poll_acceptance.1 404).mpr (Or.inr rfl),
   C3_poll_acceptance.2.2 (fun _ => PollResult.transportError) 1 0 rfl⟩

/-- C4.  The health loop is bounded: it performs at most 60 polls, every
delay it sleeps is the constant 500 ms (no backoff growth), and when no
attempt in 1..=60 is accepted it returns the `healthErrMsg` error after
exactly 60 polls. -/
theorem C4_bounded_polling (polls : Nat → PollResult) :
    pollCount (wait_for_backend (.ok ()) polls).1 ≤ 60 ∧
    (∀ ms, WaitEvent.sleep ms ∈ (wait_for_backend (.ok ()) polls).1 →
      ms = 500) ∧
    (((List.range' 1 60).all fun i => !isAlive (polls i)) = true →
      (wait_for_backend (.ok ()) polls).2 = .error healthErrMsg ∧
      pollCount (wait_for_backend (.ok ()) polls).1 = 60) := by
  refine ⟨?_, ?_, ?_⟩
  · exact pollCount_waitAux_le polls 60 1
  · intro ms h
    exact sleep_waitAux_const polls 60 1 ms h
  · intro hall
    have hfail : ∀ i, 1 ≤ i → i < 1 + 60 → isAlive (polls i) = false := by
      intro i h1 h2
      have := List.all_eq_true.mp hall i (by
        rw [List.mem_range']
        exact ⟨i - 1, by omega, by omega⟩)
      simpa using this
    have := waitAux_all_fail polls 60 1 hfail
    constructor
    · show (waitAux polls 1 60).2 = .error healthErrMsg
      rw [this]
    · show pollCount (waitAux polls 1 60).1 = 60
      rw [this]
      exact pollCount_bindTrace 60 1

/-- C4, witness: with no poll ever answered, the loop errors after
exactly 60 polls. -/
theorem C4_bounded_polling_witness :
    (wait_for_backend (.ok ()) fun _ => PollResult.transportError).2 =
      .error healthErrMsg ∧
    pollCount (wait_for_backend (.ok ())
      fun _ => PollResult.transportError).1 = 60 :=
  (C4_bounded_polling fun _ => PollResult.transportError).2.2 (by decide)

/-- C5.  `stop` kills and clears a present handle, swallowing the kill's
outcome (the result is the same under any kill oracle); a second `stop`
observes no handle, changes nothing and issues no kill, so
`stop; stop` equals `stop`; and `stop` returns no error by
construction (its type carries no error channel). -/
theorem C5_stop_idempotent
    (kr kr2 : Nat → Except String Unit) (p : BackendProcess) :
    (stop kr p).1.child = none ∧
    (stop kr2 (stop kr p).1).1 = (stop kr p).1 ∧
    (stop kr2 (stop kr p).1).2 = [] ∧
    (∀ c, p.child = some c →
      (stop kr p).2 = [c] ∧
      (stop kr p).1 = { child := none, port := p.port }) ∧
    (p.child = none → (stop kr p).1 = p ∧ (stop kr p).2 = []) ∧
    stop kr p = stop kr2 p := by
  cases hp : p.child with
  | none => refine ⟨?_, ?_, ?_, ?_, ?_, ?_⟩ <;> simp_all [stop]
  | some c => refine ⟨?_, ?_, ?_, ?_, ?_, ?_⟩ <;> simp_all [stop]

/-- C5, witness at a supervisor holding pid 5 on port 9, under two
different kill outcomes. -/
theorem C5_stop_idempotent_witness :
    (stop (fun _ => Except.ok ())
      { child := some 5, port := 9 }).1.child = none ∧
    (stop (fun _ => Except.error "kill failed")
      (stop (fun _ => Except.ok ()) { child := some 5, port := 9 }).1).1 =
      (stop (fun _ => Except.ok ()) { child := some 5, port := 9 }).1 ∧
    (stop (fun _ => Except.error "kill failed")
      (stop (fun _ => Except.ok ()) { child := some 5, port := 9 }).1).2 =
      [] ∧
    (stop (fun _ => Except.ok ()) { child := some 5, port := 9 }).2 = [5] :=
  ⟨(C5_stop_idempotent (fun _ => Except.ok ())
      (fun _ => Except.error "kill failed")
      { child := some 5, port := 9 }).1,
   (C5_stop_idempotent (fun _ => Except.ok ())
      (fun _ => Except.error "kill failed")
      { child := some 5, port := 9 }).2.1,
   (C5_stop_idempotent (fun _ => Except.ok ())
      (fun _ => Except.error "kill failed")
      { child := some 5, port := 9 }).2.2.1,
   ((C5_stop_idempotent (fun _ => Except.ok ())
      (fun _ => Except.error "kill failed")
      { child := some 5, port := 9 }).2.2.2.1 5 rfl).1⟩

/-- C6.  Destruction of a `BackendProcess` runs `stop`: a supervisor
dropped while holding a child issues a kill for exactly that child and
clears the handle, so teardown without an explicit `stop` terminates
the spawned child. -/
theorem C6_drop_invokes_stop
    (kr : Nat → Except String Unit) (p : BackendProcess) :
    dropBackend kr p = stop kr p ∧
    (∀ c, p.child = some c →
      (dropBackend kr p).2 = [c] ∧ (dropBackend kr p).1.child = none) := by
  refine ⟨rfl, ?_⟩
  intro c hc
  simp [dropBackend, stop, hc]

/-- C6, witness at a supervisor holding pid 5. -/
theorem C6_drop_invokes_stop_witness :
    (dropBackend (fun _ => Except.ok ())
      { child := some 5, port := 9 }).2 = [5] ∧
    (dropBackend (fun _ => Except.ok ())
      { child := some 5, port := 9 }).1.child = none :=
  (C6_drop_invokes_stop (fun _ => Except.ok ())
    { child := some 5, port := 9 }).2 5 rfl

/-- C7.  The port accessor leaves the state unchanged (read-only), on a
healthy lock it returns exactly the stored port, a fresh supervisor
stores port 0, the result does not depend on whether a child handle is
held, and after a successful `start` it returns the port `start`
returned (the last allocated port). -/
theorem C7_port_accessor
    (l : Except String Unit) (st : BackendProcess) :
    (get_backend_port l st).2 = st ∧
    (get_backend_port (.ok ()) st).1 = .ok st.port ∧
    BackendProcess.new.port = 0 ∧
    (∀ c, (get_backend_port l { st with child := c }).1 =
      (get_backend_port l st).1) ∧
    (∀ (o : StartOracle) (q : Nat),
      (start o BackendProcess.new).result = .ok q →
      (get_backend_port (.ok ())
        (start o BackendProcess.new).state).1 = .ok q) := by
  refine ⟨?_, rfl, rfl, ?_, ?_⟩
  · cases l <;> rfl
  · intro c; cases l <;> rfl
  · intro o q h
    have := start_ok_port o BackendProcess.new q h
    simp [get_backend_port, this]

/-- C7, witness: after the successful run `oracleAllOk` the accessor
returns the allocated port 4242; with no start it returns 0. -/
theorem C7_port_accessor_witness :
    (get_backend_port (.ok ()) BackendProcess.new).1 = .ok 0 ∧
    (get_backend_port (.ok ())
      (start oracleAllOk BackendProcess.new).state).1 = .ok 4242 :=
  ⟨by
    have h := (C7_port_accessor (.ok ()) BackendProcess.new).2.1
    simpa using h,
   (C7_port_accessor (.ok ()) BackendProcess.new).2.2.2.2
     oracleAllOk 4242 rfl⟩

/-- C8.  The environment handed to the child has exactly the fixed keys
in source order; the host is the loopback literal, the port the
allocated port, the base data directory itself is passed, and every
path-valued entry is rooted under (has as a prefix) that one data
directory; moreover any `start` run that reaches the spawn step passes
exactly this environment built from the allocated port and the
resolved data directory. -/
theorem C8_env_contents (port : Nat) (dir : List String) :
    ((backendEnv port dir).map Prod.fst =
      ["SUZENT_PORT", "SUZENT_HOST", "SUZENT_APP_DATA", "CHATS_DB_PATH",
       "LANCEDB_URI", "SANDBOX_DATA_PATH", "SKILLS_DIR"]) ∧
    ("SUZENT_HOST", EnvVal.str "127.0.0.1") ∈ backendEnv port dir ∧
    ("SUZENT_PORT", EnvVal.str (toString port)) ∈ backendEnv port dir ∧
    ("SUZENT_APP_DATA", EnvVal.path dir) ∈ backendEnv port dir ∧
    (∀ k v, (k, EnvVal.path v) ∈ backendEnv port dir → dir <+: v) ∧
    (∀ (o : StartOracle) (p : BackendProcess) (exe d : List String),
      find_available_port o.bind = .ok port →
      get_backend_path o.resourceDir false = .ok exe →
      o.appDataDir = .ok d →
      o.createDirAll d = .ok () →
      (start o p).envUsed = some (backendEnv port d)) := by
  refine ⟨rfl, ?_, ?_, ?_, ?_, ?_⟩
  · simp [backendEnv]
  · simp [backendEnv]
  · simp [backendEnv]
  · intro k v hv
    simp only [backendEnv, List.mem_cons, List.not_mem_nil, or_false,
      Prod.mk.injEq] at hv
    rcases hv with ⟨_, h⟩ | ⟨_, h⟩ | ⟨_, h⟩ | ⟨_, h⟩ | ⟨_, h⟩ | ⟨_, h⟩ | ⟨_, h⟩ <;>
      first
        | (cases h; exact List.prefix_rfl)
        | (cases h; exact List.prefix_append dir _)
        | cases h
  · intro o p exe d hport hexe hdir hmk
    unfold start
    simp only [hport, hexe, hdir, hmk]
    cases hsp : o.spawn exe (backendEnv port d) with
    | error e => rfl
    | ok c =>
      cases hw : (wait_for_backend o.clientBuild o.polls).2 with
      | error e => rfl
      | ok u => rfl

/-- C8, witness at port 4242 and directory `["data"]`, with the spawn
reached under `oracleHealthFail`. -/
theorem C8_env_contents_witness :
    ("SUZENT_HOST", EnvVal.str "127.0.0.1") ∈ backendEnv 4242 ["data"] ∧
    (["data"] <+: ["data", "chats.db"]) ∧
    (start oracleHealthFail BackendProcess.new).envUsed =
      some (backendEnv 4242 ["data"]) :=
  ⟨(C8_env_contents 4242 ["data"]).2.1,
   (C8_env_contents 4242 ["data"]).2.2.2.2.1 "CHATS_DB_PATH"
     ["data", "chats.db"] (by simp [backendEnv]),
   (C8_env_contents 4242 ["data"]).2.2.2.2.2 oracleHealthFail
     BackendProcess.new ["res", "binaries", "suzent-backend"] ["data"]
     rfl rfl rfl rfl⟩

/-- C9.  `find_available_port` consults the OS exactly once, at the
loopback bind address with port 0 (its result depends only on the
outcome at that address): on a successful bind whose address read-back
succeeds it returns the OS-assigned port, and it fails — with the
descriptive `"Failed to find available port: "` string — exactly when
the bind or the address read-back fails. -/
theorem C9_allocate_characterization
    (bind : String → Except String TcpListener) :
    (∀ l a, bind "127.0.0.1:0" = .ok l → l.local_addr = .ok a →
      find_available_port bind = .ok a.port) ∧
    (∀ e, bind "127.0.0.1:0" = .error e →
      find_available_port bind =
        .error ("Failed to find available port: " ++ e)) ∧
    (∀ l e, bind "127.0.0.1:0" = .ok l → l.local_addr = .error e →
      find_available_port bind =
        .error ("Failed to find available port: " ++ e)) ∧
    (∀ bind2 : String → Except String TcpListener,
      bind2 "127.0.0.1:0" = bind "127.0.0.1:0" →
      find_available_port bind2 = find_available_port bind) := by
  refine ⟨?_, ?_, ?_, ?_⟩
  · intro l a hl ha
    unfold find_available_port
    simp [hl, ha]
  · intro e he
    unfold find_available_port
    simp [he]
  · intro l e hl he
    unfold find_available_port
    simp [hl, he]
  · intro bind2 h
    unfold find_available_port
    rw [h]

/-- C9, witness: an OS granting port 5555 yields `.ok 5555`; an OS
refusing the bind yields the descriptive error. -/
theorem C9_allocate_characterization_witness :
    find_available_port (fun _ =>
      .ok { local_addr := .ok { host := "127.0.0.1", port := 5555 } }) =
      .ok 5555 ∧
    find_available_port (fun _ => .error "permission denied") =
      .error ("Failed to find available port: " ++ "permission denied") :=
  ⟨(C9_allocate_characterization (fun _ =>
      .ok { local_addr := .ok { host := "127.0.0.1", port := 5555 } })).1
      { local_addr := .ok { host := "127.0.0.1", port := 5555 } }
      { host := "127.0.0.1", port := 5555 } rfl rfl,
   (C9_allocate_characterization (fun _ => .error "permission denied")).2.1
      "permission denied" rfl⟩

/-- C10.  The debug-mode configuration pairs port 8000 with a fresh
`BackendProcess` whose `port` is 0 and which has spawned no child, so
the port injected into the window (8000) differs from what the
`get_backend_port` command then returns (0). -/
theorem C10_debug_config_port_mismatch :
    get_backend_config_debug.1 = 8000 ∧
    get_backend_config_debug.2.port = 0 ∧
    get_backend_config_debug.2.child = none ∧
    (get_backend_port (.ok ()) get_backend_config_debug.2).1 =
      Except.ok 0 ∧
    injectScript get_backend_config_debug.1 =
      "window.__SUZENT_BACKEND_PORT__ = " ++ toString 8000 ++ ";" ∧
    get_backend_config_debug.1 ≠ get_backend_config_debug.2.port :=
  ⟨rfl, rfl, rfl, rfl, rfl, by decide⟩

end Suzent
